import Mathlib

/-!
# Verification of the SNTP client (blinky/mpy-lib/sntp.py)

A shallow embedding of the time-sync client: the time-domain conversion
functions `ntp2mp` / `mp2ntp`, the request/reply word codec, the reply
receive loop of `SNTP._poll`, the offset/delay computation, and the
per-round state update of `SNTP._poller`.

Conventions of the embedding:
* Python integers are `Int` (arbitrary precision, as in CPython).
* Python floor division `//` and `%` by a positive divisor coincide with
  Lean's `Int` division `/` and `%` (both round toward negative infinity
  for a positive divisor), so `divmod(u, 1000000)` is `(u / 1000000,
  u % 1000000)`, and `x >> 32` on an `Int` is `x / 2 ^ 32` while
  `x << 32` is `x * 2 ^ 32`.
* Byte strings are `List Nat` (each entry one byte); `struct.unpack_from`
  with format `!II` is modelled by `unpackII`, which fails (raising
  `struct.error` in Python) when the buffer is too short.
* The cooperative receive loop is modelled by folding over the list of
  datagram-arrival events the environment produces during one round.
-/

set_option autoImplicit false

namespace Sntp

/-- `NTP_DELTA` (sntp.py line 33): seconds between the 1900 wire epoch and
the 2000 local epoch. -/
def NTP_DELTA : Int := 3155673600

/-- Offset of the originate timestamp in the NTP packet (line 24). -/
def OFF_ORIG : Nat := 24

/-- Offset of the receive timestamp in the NTP packet (line 25). -/
def OFF_RX : Nat := 32

/-- Offset of the transmit timestamp in the NTP packet (line 26). -/
def OFF_TX : Nat := 40

/-- `ntp2mp(secs, frac)` (lines 37-40): converts NTP seconds+fraction
(epoch 1900) to local microseconds (epoch 2000):
`usec = (frac * 1000000) >> 32; return ((secs - NTP_DELTA) * 1000000) + usec`. -/
def ntp2mp (secs frac : Int) : Int :=
  (secs - NTP_DELTA) * 1000000 + (frac * 1000000) / 2 ^ 32

/-- `mp2ntp(usecs)` (lines 44-46): converts local microseconds to NTP
seconds and fraction: `(secs, usecs) = divmod(usecs, 1000000);
return (secs + NTP_DELTA, (usecs << 32) // 1000000)`. -/
def mp2ntp (usecs : Int) : Int × Int :=
  (usecs / 1000000 + NTP_DELTA, (usecs % 1000000) * 2 ^ 32 / 1000000)

/-- One byte of a buffer; indexing past the end yields 0 (never reached on
the paths the theorems use, where the length bound is checked first). -/
def byteAt (buf : List Nat) (i : Nat) : Nat :=
  buf.getD i 0

/-- A big-endian 32-bit word read from a buffer at a byte offset. -/
def word32At (buf : List Nat) (off : Nat) : Int :=
  (byteAt buf off * 2 ^ 24 + byteAt buf (off + 1) * 2 ^ 16 +
    byteAt buf (off + 2) * 2 ^ 8 + byteAt buf (off + 3) : Nat)

/-- `struct.unpack_from("!II", buf, off)`: two big-endian unsigned 32-bit
words at byte offset `off`.  Python raises `struct.error` when the buffer
holds fewer than `off + 8` bytes; that failure is `none`. -/
def unpackII (buf : List Nat) (off : Nat) : Option (Int × Int) :=
  if off + 8 ≤ buf.length then
    some (word32At buf off, word32At buf (off + 4))
  else
    none

/-- Big-endian bytes of a 32-bit word, as `struct.pack` with format `!I`
writes them.  Used to build concrete reply buffers in the theorems. -/
def pack32 (w : Nat) : List Nat :=
  [w / 2 ^ 24 % 256, w / 2 ^ 16 % 256, w / 2 ^ 8 % 256, w % 256]

/-! ## The receive loop of `SNTP._poll` (lines 104-110)

```
while True:
    rbuf = await asyncio.wait_for(self._recv(48), timeout=1)
    recv_us = time_us()-TZ_US
    orig_ntp = struct.unpack_from("!II", rbuf, OFF_ORIG)
    if orig_ntp == send_ntp:
        break
```

Each iteration wraps one `self._recv(48)` in a fresh `wait_for` with a
1-second timeout.  The environment is modelled as a list of datagram
arrivals: each `Event` records how long after the previous `await`
started the datagram arrived (`delay`, microseconds), the value
`time_us()-TZ_US` reads at that moment (`recvUs`), and the bytes
`stream.read(48)` returned (`buf`, at most 48 bytes of one datagram).
When the next arrival takes longer than the timeout, `wait_for` raises
`asyncio.TimeoutError`; an exhausted event list means no further datagram
arrives, so the pending `wait_for` times out as well. -/

/-- Timeout of each `asyncio.wait_for` call, in microseconds
(`timeout=1` second, line 106). -/
def RECV_TIMEOUT : Nat := 1000000

/-- One datagram arrival during the receive loop. -/
structure Event where
  delay : Nat
  recvUs : Int
  buf : List Nat
deriving DecidableEq, Repr

/-- Result of the receive loop, with the total time spent waiting
(microseconds since the loop was entered). -/
inductive LoopResult where
  /-- The `break` at line 110: a reply whose originate field equals
  `send_ntp` arrived; `rbuf` and the `recv_us` sampled at line 107. -/
  | matched (rbuf : List Nat) (recvUs : Int) (elapsed : Nat)
  /-- `asyncio.TimeoutError` escaped from `wait_for` (line 106). -/
  | timedOut (elapsed : Nat)
  /-- `struct.error` escaped from `unpack_from` (line 108): the datagram
  was too short to hold the originate field. -/
  | parseError (elapsed : Nat)
deriving DecidableEq, Repr

/-- The receive loop, folded over the arrival events.  `send_ntp` is the
`(seconds, fraction)` pair the client wrote into the request's transmit
field; `elapsed` accumulates the waiting time so far. -/
def recvLoop (send_ntp : Int × Int) : List Event → Nat → LoopResult
  | [], elapsed => .timedOut (elapsed + RECV_TIMEOUT)
  | e :: rest, elapsed =>
    if RECV_TIMEOUT < e.delay then
      .timedOut (elapsed + RECV_TIMEOUT)
    else
      match unpackII e.buf OFF_ORIG with
      | none => .parseError (elapsed + e.delay)
      | some orig =>
        if orig = send_ntp then
          .matched e.buf e.recvUs (elapsed + e.delay)
        else
          recvLoop send_ntp rest (elapsed + e.delay)

/-- Outcome of one whole `SNTP._poll` round as `_poller` observes it. -/
inductive PollOutcome where
  /-- `_poll` returned `(delay, step)` (line 161). -/
  | success (delay step : Int)
  /-- `asyncio.TimeoutError` propagated to `_poller` (line 189). -/
  | timeout
  /-- `struct.error` propagated to `_poller`, caught by the generic
  `except Exception` handler (line 200). -/
  | error
deriving DecidableEq, Repr

/-- `SNTP._poll` after the request was sent: run the receive loop, then
compute delay and offset from the matched reply (lines 151-154):

```
rx_us = ntp2mp(*struct.unpack_from("!II", rbuf, OFF_RX))
tx_us = ntp2mp(*struct.unpack_from("!II", rbuf, OFF_TX))
delay = (recv_us - send_us) - (tx_us - rx_us)
step = ((rx_us - send_us) + (tx_us - recv_us)) // 2
```

Both unpacks require a 48-byte buffer; a shorter matched buffer raises
`struct.error` (as does the `!IIIIII` unpack at line 156). -/
def pollRound (send_us : Int) (send_ntp : Int × Int) (events : List Event) :
    PollOutcome :=
  match recvLoop send_ntp events 0 with
  | .timedOut _ => .timeout
  | .parseError _ => .error
  | .matched rbuf recv_us _ =>
    match unpackII rbuf OFF_RX, unpackII rbuf OFF_TX with
    | some rxw, some txw =>
      let rx_us := ntp2mp rxw.1 rxw.2
      let tx_us := ntp2mp txw.1 txw.2
      .success ((recv_us - send_us) - (tx_us - rx_us))
        (((rx_us - send_us) + (tx_us - recv_us)) / 2)
    | _, _ => .error

/-! ## The poll loop of `SNTP._poller` (lines 163-203)

The engine's mutable attributes.  The source mutates four distinct
attributes; two pairs differ only by a leading underscore, and the code
mixes the members of each pair:

* `_sock` is the cached socket set at line 83 and tested at line 80
  (`if self._sock is None`); the exception handlers assign `None` to a
  *different* attribute `sock` (lines 193 and 198) that nothing reads.
* `_status` is set to 0 once at line 164 and read at lines 168 and 191;
  every later write (`lines 168 and 186`) goes to the *different*
  attribute `status`, which nothing reads.

The embedding keeps all four, named as in the source with the leading
underscore spelled `u` (`usock` for `_sock`, `ustatus` for `_status`). -/

/-- The mutable attributes of the `SNTP` object that `_poller` and
`_poll` touch.  The socket is abstracted to the resolved address it is
connected to. -/
structure EngineState where
  /-- `self._sock` / `self._addr`: the cached socket, `none` before the
  first resolution (line 54). -/
  usock : Option Nat
  /-- `self.sock`: the attribute the exception handlers assign (lines
  193 and 198); `none` also stands for "not yet created". -/
  sock : Option Nat
  /-- `self._status`: set to 0 at line 164, read at lines 168 and 191. -/
  ustatus : Nat
  /-- `self.status`: written at lines 168 and 186. -/
  status : Nat
deriving DecidableEq, Repr

/-- `_poller`'s initial state (line 164 runs `self._status = 0` before
the first round; no socket exists yet). -/
def initState : EngineState :=
  { usock := none, sock := none, ustatus := 0, status := 0 }

/-- The resolve-and-connect prologue of `_poll` (lines 80-84): the
resolution path runs exactly when `self._sock is None`, and on success
caches the new socket.  Returns the new state and whether a resolution
call was issued. -/
def resolveStep (st : EngineState) (newAddr : Nat) : EngineState × Bool :=
  match st.usock with
  | none => ({ st with usock := some newAddr }, true)
  | some _ => (st, false)

/-- `int(max_step * 1000000)` with the default `max_step=1`
(lines 52 and 61): one second in microseconds. -/
def MAX_STEP_DEFAULT : Int := 1000000

/-- The clock-correction decision on a successful round
(lines 170-184): write the RTC iff
`step_us > max_step or -step_us > max_step`, else skip the write iff
`abs(step_us) < 500000`. -/
def clockWritten (step_us max_step : Int) : Bool :=
  if step_us > max_step ∨ -step_us > max_step then
    true
  else if |step_us| < 500000 then
    false
  else
    true

/-- Observable effects of one `_poller` round. -/
structure RoundEffects where
  /-- Whether `_poll` issued a `getaddrinfo` resolution this round. -/
  resolved : Bool
  /-- Whether `machine.RTC().init(...)` was called this round. -/
  clockSet : Bool
  /-- The `asyncio.sleep` duration ending the round, in seconds
  (0 when the round ends with no sleep at all). -/
  sleepSec : Nat
deriving DecidableEq, Repr

/-- One iteration of `_poller`'s `while True` body (lines 165-203),
given the outcome the environment produces for this round's `_poll`.

* Line 168 first runs `self.status = (self._status << 1) & 0xFFFF` —
  reading `_status` but writing `status`.
* On success: the clock decision, then `self.status |= 1` (line 186)
  and `sleep(61)`.
* On `asyncio.TimeoutError`: if `(self._status & 0x7) == 0` then
  `self.sock = None` and `sleep(11)` (both inside the `if`, lines
  193-194); otherwise the round ends with no sleep.
* On `OSError`: `self.sock = None` and `sleep(11)` (lines 198-199).
* On any other exception: `sleep(121)` (line 203).

When `_poll` ran at all (every outcome here reaches `_poll`), its
prologue may have resolved and cached a socket; resolution is modelled
as succeeding whenever the round's outcome is not an `OSError`
(an `OSError` with no cached socket is a resolution failure that leaves
`_sock` unset, matching the "Most likely DNS lookup failure" comment at
line 196). -/
def pollerRound (st : EngineState) (max_step : Int) (newAddr : Nat)
    (res : PollOutcome) : EngineState × RoundEffects :=
  let st1 := { st with status := (st.ustatus <<< 1) &&& 0xFFFF }
  let st2 := (resolveStep st1 newAddr).1
  let resolved := (resolveStep st1 newAddr).2
  match res with
  | .success _ step =>
    ({ st2 with status := st2.status ||| 1 },
      { resolved := resolved, clockSet := clockWritten step max_step,
        sleepSec := 61 })
  | .timeout =>
    if st2.ustatus &&& 0x7 = 0 then
      ({ st2 with sock := none },
        { resolved := resolved, clockSet := false, sleepSec := 11 })
    else
      (st2, { resolved := resolved, clockSet := false, sleepSec := 0 })
  | .error =>
    (st2, { resolved := resolved, clockSet := false, sleepSec := 121 })

/-- An `OSError` round (lines 195-199): the handler assigns
`self.sock = None` — leaving `self._sock` untouched — and sleeps 11
seconds.  Modelled separately from `pollerRound` because an `OSError`
escapes `_poll` before a socket is cached when none was cached yet. -/
def oserrorRound (st : EngineState) : EngineState × RoundEffects :=
  let st1 := { st with status := (st.ustatus <<< 1) &&& 0xFFFF }
  ({ st1 with sock := none },
    { resolved := st.usock.isNone, clockSet := false, sleepSec := 11 })

/-! ## Concrete fixtures used by the witnesses and counterexamples -/

/-- The transmit timestamp a request sent at local time 1000 µs carries:
`mp2ntp(1000) = (3155673600, 4294967)`. -/
def sendNtpEx : Int × Int := mp2ntp 1000

/-- A well-formed 48-byte reply to that request: originate echoes
`mp2ntp(1000)`, receive converts back to 1500 µs local, transmit to
1600 µs local (`ntp2mp(3155673600, 6442451) = 1500`,
`ntp2mp(3155673600, 6871948) = 1600`). -/
def exampleReply : List Nat :=
  List.replicate 24 0 ++ pack32 3155673600 ++ pack32 4294967 ++
    pack32 3155673600 ++ pack32 6442451 ++ pack32 3155673600 ++ pack32 6871948

/-- The matching reply arriving immediately, read at local time 1200 µs. -/
def evEx : Event := { delay := 0, recvUs := 1200, buf := exampleReply }

/-- A 48-byte all-zero datagram: parseable, originate `(0, 0)`, which
matches no request of this client. -/
def nmBuf : List Nat := List.replicate 48 0

/-- A non-matching datagram arriving 0.9 s into a receive window. -/
def nmEvent : Event := { delay := 900000, recvUs := 0, buf := nmBuf }

/-- A truncated 20-byte datagram: too short for the originate field. -/
def shortBuf : List Nat := List.replicate 20 0

/-- An engine state in which a socket to address 7 is already cached
(as after any successful earlier round). -/
def cachedState : EngineState :=
  { usock := some 7, sock := none, ustatus := 0, status := 0 }

end Sntp

namespace Sntp

/-- Claim C1: for every successful exchange, the round-trip delay
returned by `_poll` equals `(recvLocal - sendLocal) - (tx - rx)` and the
clock offset equals `((rx - sendLocal) + (tx - recvLocal)) / 2`, where
`rx` and `tx` are the server's receive and transmit wire timestamps
converted to local microseconds by `ntp2mp`, and the halving is the
floor division of Python `//` (which truncates toward negative infinity,
i.e. toward the sign of a negative dividend; for a nonnegative dividend
it is plain truncation). -/
theorem poll_delay_offset_formula (send_us : Int) (send_ntp : Int × Int)
    (events : List Event) (rbuf : List Nat) (recv_us : Int) (el : Nat)
    (rxw txw : Int × Int)
    (hm : recvLoop send_ntp events 0 = .matched rbuf recv_us el)
    (hrx : unpackII rbuf OFF_RX = some rxw)
    (htx : unpackII rbuf OFF_TX = some txw) :
    pollRound send_us send_ntp events =
      .success
        ((recv_us - send_us) - (ntp2mp txw.1 txw.2 - ntp2mp rxw.1 rxw.2))
        (((ntp2mp rxw.1 rxw.2 - send_us) + (ntp2mp txw.1 txw.2 - recv_us)) / 2) := by
  simp [pollRound, hm, hrx, htx]

/-- Claim C1, instantiated: with `sendLocal = 1000`, `recvLocal = 1200`
and a reply whose receive and transmit fields convert to 1500 and
1600 µs local, the exchange yields delay 100 and offset 450. -/
theorem poll_delay_offset_formula_witness :
    recvLoop sendNtpEx [evEx] 0 = .matched exampleReply 1200 0 ∧
    unpackII exampleReply OFF_RX = some (3155673600, 6442451) ∧
    unpackII exampleReply OFF_TX = some (3155673600, 6871948) ∧
    ntp2mp 3155673600 6442451 = 1500 ∧
    ntp2mp 3155673600 6871948 = 1600 ∧
    pollRound 1000 sendNtpEx [evEx] = .success 100 450 := by
  refine ⟨by decide, by decide, by decide, by decide, by decide, ?_⟩
  have h := poll_delay_offset_formula 1000 sendNtpEx [evEx] exampleReply 1200 0
    (3155673600, 6442451) (3155673600, 6871948) (by decide) (by decide) (by decide)
  rw [h]
  decide

/-- Claim C2: converting a nonnegative in-range local microsecond value
to a wire timestamp and back loses at most one microsecond of fraction
and never rounds up: `ntp2mp (mp2ntp x) ∈ \x7bx - 1, x\x7d`. -/
theorem ntp_roundtrip (x : Int) (h0 : 0 ≤ x) (h1 : x < 1139293696000000) :
    ntp2mp (mp2ntp x).1 (mp2ntp x).2 ≤ x ∧
      x - ntp2mp (mp2ntp x).1 (mp2ntp x).2 ≤ 1 := by
  simp only [ntp2mp, mp2ntp, NTP_DELTA]
  omega

/-- Claim C2, instantiated at `x = 123456789`: the round trip loses at
most one microsecond. -/
theorem ntp_roundtrip_witness :
    (0 : Int) ≤ 123456789 ∧ (123456789 : Int) < 1139293696000000 ∧
      ntp2mp (mp2ntp 123456789).1 (mp2ntp 123456789).2 ≤ 123456789 ∧
      123456789 - ntp2mp (mp2ntp 123456789).1 (mp2ntp 123456789).2 ≤ 1 := by
  refine ⟨by decide, by decide, ?_⟩
  exact ntp_roundtrip 123456789 (by decide) (by decide)

/-- Claim C3: the clock-correction decision of `_poller` after a
successful round writes the clock iff the offset's magnitude exceeds
`max_step`, or lies between the fixed 500000 µs minimum and `max_step`;
in particular, with the default `max_step` of 1000000 µs, offsets of
400000 µs (no write), 2000000 µs and -2000000 µs (write regardless of
sign) and 600000 µs (write) decide as the spec states. -/
theorem clock_step_policy (st : EngineState) (newAddr : Nat)
    (max_step delay step : Int) :
    ((|step| > max_step →
        (pollerRound st max_step newAddr (.success delay step)).2.clockSet = true) ∧
      (|step| ≤ max_step → |step| < 500000 →
        (pollerRound st max_step newAddr (.success delay step)).2.clockSet = false) ∧
      (|step| ≤ max_step → 500000 ≤ |step| →
        (pollerRound st max_step newAddr (.success delay step)).2.clockSet = true)) ∧
    (pollerRound cachedState MAX_STEP_DEFAULT 7 (.success 0 400000)).2.clockSet = false ∧
    (pollerRound cachedState MAX_STEP_DEFAULT 7 (.success 0 2000000)).2.clockSet = true ∧
    (pollerRound cachedState MAX_STEP_DEFAULT 7 (.success 0 (-2000000))).2.clockSet = true ∧
    (pollerRound cachedState MAX_STEP_DEFAULT 7 (.success 0 600000)).2.clockSet = true := by
  refine ⟨⟨?_, ?_, ?_⟩, by decide, by decide, by decide, by decide⟩
  · intro h
    rw [gt_iff_lt, lt_abs] at h
    show clockWritten step max_step = true
    rw [clockWritten]
    simp only [abs_lt]
    split_ifs with hA hB <;> first | rfl | omega
  · intro h1 h2
    rw [abs_le] at h1
    rw [abs_lt] at h2
    show clockWritten step max_step = false
    rw [clockWritten]
    simp only [abs_lt]
    split_ifs with hA hB <;> first | rfl | omega
  · intro h1 h2
    rw [abs_le] at h1
    rw [le_abs] at h2
    show clockWritten step max_step = true
    rw [clockWritten]
    simp only [abs_lt]
    split_ifs with hA hB <;> first | rfl | omega

/-- Claim C3, instantiated at offset 600000 µs with the default
`max_step`: the clock is written. -/
theorem clock_step_policy_witness :
    |(600000 : Int)| ≤ MAX_STEP_DEFAULT ∧ (500000 : Int) ≤ |(600000 : Int)| ∧
      (pollerRound cachedState MAX_STEP_DEFAULT 7 (.success 100 600000)).2.clockSet = true := by
  refine ⟨by decide, by decide, ?_⟩
  exact (clock_step_policy cachedState 7 MAX_STEP_DEFAULT 100 600000).1.2.2
    (by decide) (by decide)

/-- Claim C10: for every integer microsecond input, `mp2ntp` produces a
fraction in `[0, 2^32)`: the floor `divmod` by 1000000 leaves a
remainder in `[0, 1000000)` and `(remainder << 32) // 1000000` is below
`2^32`, so the fraction always fits the unsigned 32-bit field that
`struct.pack_into("!II", ...)` checks when the request is packed. -/
theorem mp2ntp_frac_in_range (u : Int) :
    0 ≤ u % 1000000 ∧ u % 1000000 < 1000000 ∧
      0 ≤ (mp2ntp u).2 ∧ (mp2ntp u).2 < 2 ^ 32 := by
  simp only [mp2ntp]
  omega

/-- Claim C4: the receive loop only ever breaks with success on a reply
whose originate field equals the transmit timestamp the client sent, and
a parseable reply with a non-matching originate field is discarded, the
loop continuing on the remaining arrivals. -/
theorem match_discipline (send_ntp : Int × Int) :
    (∀ (events : List Event) (el : Nat) (rbuf : List Nat) (r : Int) (el2 : Nat),
        recvLoop send_ntp events el = .matched rbuf r el2 →
        unpackII rbuf OFF_ORIG = some send_ntp) ∧
    (∀ (e : Event) (rest : List Event) (el : Nat) (orig : Int × Int),
        e.delay ≤ RECV_TIMEOUT →
        unpackII e.buf OFF_ORIG = some orig → orig ≠ send_ntp →
        recvLoop send_ntp (e :: rest) el = recvLoop send_ntp rest (el + e.delay)) := by
  constructor
  · intro events
    induction events with
    | nil =>
      intro el rbuf r el2 h
      simp [recvLoop] at h
    | cons e rest ih =>
      intro el rbuf r el2 h
      rw [recvLoop] at h
      by_cases hd : RECV_TIMEOUT < e.delay
      · simp [hd] at h
      · rw [if_neg hd] at h
        cases hu : unpackII e.buf OFF_ORIG with
        | none => simp only [hu] at h; simp at h
        | some orig =>
          simp only [hu] at h
          by_cases ho : orig = send_ntp
          · rw [if_pos ho] at h
            obtain ⟨h1, h2, h3⟩ := LoopResult.matched.inj h
            rw [← h1, hu, ho]
          · rw [if_neg ho] at h
            exact ih _ _ _ _ h
  · intro e rest el orig hd hu ho
    rw [recvLoop, if_neg (by omega)]
    simp only [hu]
    rw [if_neg ho]

/-- Claim C4, instantiated: the matching reply is accepted and its
originate field equals `mp2ntp(1000)`; a parseable all-zero reply is
discarded and the loop continues on the rest of the arrivals. -/
theorem match_discipline_witness :
    (recvLoop sendNtpEx [evEx] 0 = .matched exampleReply 1200 0 ∧
      unpackII exampleReply OFF_ORIG = some sendNtpEx) ∧
    (nmEvent.delay ≤ RECV_TIMEOUT ∧
      unpackII nmEvent.buf OFF_ORIG = some (0, 0) ∧
      ((0, 0) : Int × Int) ≠ sendNtpEx ∧
      recvLoop sendNtpEx [nmEvent, evEx] 0 =
        recvLoop sendNtpEx [evEx] (0 + nmEvent.delay)) := by
  refine ⟨⟨by decide, ?_⟩, by decide, by decide, by decide, ?_⟩
  · exact (match_discipline sendNtpEx).1 [evEx] 0 exampleReply 1200 0 (by decide)
  · exact (match_discipline sendNtpEx).2 nmEvent [evEx] 0 (0, 0)
      (by decide) (by decide) (by decide)

/-- Claim C6 as stated is false: the 1-second timeout is armed anew for
every `_recv(48)` call, so non-matching datagrams do extend the total
wait.  Three datagrams 0.9 s apart keep the exchange alive for 2.7 s —
past the single 1-second budget the claim allows — before the genuine
reply is accepted. -/
theorem timeout_budget_counterexample :
    unpackII nmBuf OFF_ORIG = some (0, 0) ∧
    ((0, 0) : Int × Int) ≠ sendNtpEx ∧
    recvLoop sendNtpEx
        [nmEvent, nmEvent, { delay := 900000, recvUs := 1200, buf := exampleReply }] 0 =
      .matched exampleReply 1200 2700000 ∧
    RECV_TIMEOUT < 2700000 := by decide

/-- Claim C6, amended: the timeout is per receive attempt, restarted on
every datagram arrival.  A stream of parseable non-matching datagrams,
each arriving within the 1-second window, is consumed whole: the loop
keeps waiting through all of them and only times out one full
`RECV_TIMEOUT` after the last, so the total wait is the sum of all the
inter-arrival delays plus one timeout — unbounded in the number of
datagrams. -/
theorem timeout_per_receive (send_ntp : Int × Int) (events : List Event) (el : Nat)
    (h : ∀ e ∈ events, e.delay ≤ RECV_TIMEOUT ∧
        unpackII e.buf OFF_ORIG ≠ none ∧
        unpackII e.buf OFF_ORIG ≠ some send_ntp) :
    recvLoop send_ntp events el =
      .timedOut (el + (events.map Event.delay).sum + RECV_TIMEOUT) := by
  induction events generalizing el with
  | nil => simp [recvLoop]
  | cons e rest ih =>
    obtain ⟨hd, hn, hs⟩ := h e (by simp)
    cases hu : unpackII e.buf OFF_ORIG with
    | none => exact absurd hu hn
    | some orig =>
      have ho : orig ≠ send_ntp := by
        intro hh
        exact hs (hh ▸ hu)
      rw [recvLoop, if_neg (by omega)]
      simp only [hu]
      rw [if_neg ho, ih (el + e.delay) (fun x hx => h x (by simp [hx]))]
      simp only [List.map_cons, List.sum_cons, LoopResult.timedOut.injEq]
      omega

/-- Claim C6, amended, instantiated: two non-matching datagrams 0.9 s
apart consume 1.8 s before the final 1-second timeout even starts. -/
theorem timeout_per_receive_witness :
    (∀ e ∈ [nmEvent, nmEvent], e.delay ≤ RECV_TIMEOUT ∧
        unpackII e.buf OFF_ORIG ≠ none ∧
        unpackII e.buf OFF_ORIG ≠ some sendNtpEx) ∧
    recvLoop sendNtpEx [nmEvent, nmEvent] 0 = .timedOut 2800000 := by
  refine ⟨by decide, ?_⟩
  exact (timeout_per_receive sendNtpEx [nmEvent, nmEvent] 0 (by decide)).trans
    (by decide)

/-- Claim C8 as stated is false: a datagram too short to contain the
originate field (here 20 bytes) makes `struct.unpack_from` raise
`struct.error`, which ends the round at once through the generic
exception handler — the round does not keep waiting and does not end by
timeout. -/
theorem malformed_counterexample :
    shortBuf.length = 20 ∧
    recvLoop sendNtpEx [{ delay := 0, recvUs := 0, buf := shortBuf }] 0 =
      .parseError 0 ∧
    pollRound 1000 sendNtpEx [{ delay := 0, recvUs := 0, buf := shortBuf }] =
      .error ∧
    PollOutcome.error ≠ PollOutcome.timeout := by decide

/-- Claim C8, amended: a malformed reply that still holds a full
originate field (at least 32 bytes) and does not match is treated as "no
valid reply yet" — the loop keeps waiting and the round can still end by
timeout — but a datagram shorter than 32 bytes raises a parse error that
ends the round by itself (through the 121-second generic handler, not
the timeout path). -/
theorem malformed_reply_handling (send_ntp : Int × Int) (send_us : Int)
    (e : Event) (rest : List Event) (el : Nat) (hd : e.delay ≤ RECV_TIMEOUT) :
    (e.buf.length < 32 →
      recvLoop send_ntp (e :: rest) el = .parseError (el + e.delay)) ∧
    (e.buf.length < 32 →
      pollRound send_us send_ntp (e :: rest) = .error) ∧
    (∀ orig : Int × Int, unpackII e.buf OFF_ORIG = some orig → orig ≠ send_ntp →
      recvLoop send_ntp (e :: rest) el = recvLoop send_ntp rest (el + e.delay)) := by
  have hshort : e.buf.length < 32 → unpackII e.buf OFF_ORIG = none := by
    intro hl
    rw [unpackII, OFF_ORIG, if_neg (by omega)]
  refine ⟨?_, ?_, ?_⟩
  · intro hl
    rw [recvLoop, if_neg (by omega), hshort hl]
  · intro hl
    have h0 : recvLoop send_ntp (e :: rest) 0 = .parseError (0 + e.delay) := by
      rw [recvLoop, if_neg (by omega), hshort hl]
    rw [pollRound, h0]
  · intro orig hu ho
    rw [recvLoop, if_neg (by omega)]
    simp only [hu]
    rw [if_neg ho]

/-- Claim C8, amended, instantiated: the 20-byte datagram ends the
round as a parse error, while a 48-byte non-matching datagram leaves the
loop waiting on the remaining arrivals. -/
theorem malformed_reply_handling_witness :
    ({ delay := 0, recvUs := 0, buf := shortBuf : Event }.delay ≤ RECV_TIMEOUT ∧
      shortBuf.length < 32 ∧
      recvLoop sendNtpEx [{ delay := 0, recvUs := 0, buf := shortBuf }] 0 =
        .parseError (0 + 0) ∧
      pollRound 1000 sendNtpEx [{ delay := 0, recvUs := 0, buf := shortBuf }] =
        .error) ∧
    (nmEvent.delay ≤ RECV_TIMEOUT ∧
      unpackII nmEvent.buf OFF_ORIG = some (0, 0) ∧
      ((0, 0) : Int × Int) ≠ sendNtpEx ∧
      recvLoop sendNtpEx [nmEvent] 0 = recvLoop sendNtpEx [] (0 + nmEvent.delay)) := by
  refine ⟨⟨by decide, by decide, ?_, ?_⟩, by decide, by decide, by decide, ?_⟩
  · exact (malformed_reply_handling sendNtpEx 1000
      { delay := 0, recvUs := 0, buf := shortBuf } [] 0 (by decide)).1 (by decide)
  · exact (malformed_reply_handling sendNtpEx 1000
      { delay := 0, recvUs := 0, buf := shortBuf } [] 0 (by decide)).2.1 (by decide)
  · exact (malformed_reply_handling sendNtpEx 1000 nmEvent [] 0
      (by decide)).2.2 (0, 0) (by decide) (by decide)

/-- Claim C5 is the documented intent ("Three failures in a row, force
fresh DNS look-up", line 192) but the code assigns `None` to the stray
attribute `self.sock` instead of `self._sock`: after three consecutive
timed-out rounds the cached socket is still in place, so the next round
issues no resolution call — `_poll`'s resolve path (line 80) never runs
again. -/
theorem timeout_reresolution_bug :
    (pollerRound cachedState MAX_STEP_DEFAULT 7 .timeout).2.sleepSec = 11 ∧
    (pollerRound cachedState MAX_STEP_DEFAULT 7 .timeout).1.usock = some 7 ∧
    (pollerRound cachedState MAX_STEP_DEFAULT 7 .timeout).1.sock = none ∧
    ((pollerRound
        ((pollerRound
            ((pollerRound cachedState MAX_STEP_DEFAULT 7 .timeout).1)
            MAX_STEP_DEFAULT 7 .timeout).1)
        MAX_STEP_DEFAULT 7 .timeout).1.usock = some 7) ∧
    (resolveStep
        ((pollerRound
            ((pollerRound
                ((pollerRound cachedState MAX_STEP_DEFAULT 7 .timeout).1)
                MAX_STEP_DEFAULT 7 .timeout).1)
            MAX_STEP_DEFAULT 7 .timeout).1) 9).2 = false ∧
    (pollerRound
        ((pollerRound
            ((pollerRound
                ((pollerRound cachedState MAX_STEP_DEFAULT 7 .timeout).1)
                MAX_STEP_DEFAULT 7 .timeout).1)
            MAX_STEP_DEFAULT 7 .timeout).1)
        MAX_STEP_DEFAULT 9 .timeout).2.resolved = false := by decide

/-- Claim C7 is half right: on `OSError` the engine does sleep 11
seconds and loop, but the handler's `self.sock = None` (line 198) leaves
the cached `self._sock` untouched, so the next round neither re-resolves
nor reconnects. -/
theorem oserror_invalidation_bug :
    (oserrorRound cachedState).2.sleepSec = 11 ∧
    (oserrorRound cachedState).1.usock = some 7 ∧
    (oserrorRound cachedState).1.sock = none ∧
    (resolveStep (oserrorRound cachedState).1 9).2 = false ∧
    (oserrorRound cachedState).2.resolved = false := by decide

/-- Claim C9 is the intent behind `(self._status & 0x7) == 0` (line 191)
but the shift at line 168 reads `self._status` — set to 0 once and never
written again — and stores into the distinct attribute `self.status`, so
no history accumulates: after a successful round followed by any round
the stored field is 0 or 1 again, never the shifted history (2 after
success-then-failure, 3 after two successes) the claim requires. -/
theorem status_history_bug :
    (pollerRound cachedState MAX_STEP_DEFAULT 7 (.success 100 450)).1.status = 1 ∧
    (pollerRound cachedState MAX_STEP_DEFAULT 7 (.success 100 450)).1.ustatus = 0 ∧
    (pollerRound
        ((pollerRound cachedState MAX_STEP_DEFAULT 7 (.success 100 450)).1)
        MAX_STEP_DEFAULT 7 .timeout).1.status = 0 ∧
    (pollerRound
        ((pollerRound cachedState MAX_STEP_DEFAULT 7 (.success 100 450)).1)
        MAX_STEP_DEFAULT 7 .timeout).1.status ≠ 2 ∧
    (pollerRound
        ((pollerRound cachedState MAX_STEP_DEFAULT 7 (.success 100 450)).1)
        MAX_STEP_DEFAULT 7 (.success 100 450)).1.status = 1 ∧
    (pollerRound
        ((pollerRound cachedState MAX_STEP_DEFAULT 7 (.success 100 450)).1)
        MAX_STEP_DEFAULT 7 (.success 100 450)).1.status ≠ 3 ∧
    (pollerRound
        ((pollerRound cachedState MAX_STEP_DEFAULT 7 (.success 100 450)).1)
        MAX_STEP_DEFAULT 7 (.success 100 450)).1.ustatus = 0 := by decide

end Sntp
